import Mathlib

/-!
Verification of the Geaux Driving booking/CRM backend (src/main.py).

The development shallowly embeds the backend: documents are association
lists of string keys to primitive values, the document store is an explicit
state threaded through each endpoint, and each FastAPI handler becomes a
Lean function from its validated payload and the store to a response and an
updated store.  The persistence adapter (`create_document`, `get_documents`
of the absent `database.py`) is modelled from the specification, as marked
on each such definition; everything else is translated from src/main.py.
-/

namespace GeauxDriving

/-- A naive calendar timestamp, standing in for Python's `datetime.datetime`. -/
structure Datetime where
  year : Nat
  month : Nat
  day : Nat
  hour : Nat
  minute : Nat
  second : Nat
  microsecond : Nat
deriving DecidableEq, Repr

/-- Zero-pad the decimal form of `n` to at least `w` digits. -/
def padZeros (w : Nat) (n : Nat) : String :=
  let s := toString n
  String.mk (List.replicate (w - s.length) '0') ++ s

/-- Python's `datetime.isoformat()` for a naive timestamp:
`YYYY-MM-DDTHH:MM:SS` with `.ffffff` appended only when the microsecond
field is nonzero. -/
def Datetime.isoformat (d : Datetime) : String :=
  padZeros 4 d.year ++ "-" ++ padZeros 2 d.month ++ "-" ++ padZeros 2 d.day ++ "T" ++
  padZeros 2 d.hour ++ ":" ++ padZeros 2 d.minute ++ ":" ++ padZeros 2 d.second ++
  (if d.microsecond = 0 then "" else "." ++ padZeros 6 d.microsecond)

/-- The primitive values a stored document's field can hold: JSON nulls,
strings, numbers and booleans, plus the two store-specific types that
`serialize_doc` normalizes — BSON ObjectId (carried as its hex text, which
is exactly what Python's `str` returns on it) and datetime. -/
inductive Value where
  | vNull : Value
  | vStr : String → Value
  | vInt : Int → Value
  | vBool : Bool → Value
  | vOid : String → Value
  | vDatetime : Datetime → Value
deriving DecidableEq, Repr

/-- A document: a flat mapping of field names to primitive values, in
insertion order, as a Python dict holds it. -/
abbrev Doc := List (String × Value)

/-- The per-value branch of `serialize_doc` (src/main.py lines 36-42):
ObjectId values become their plain string form, datetime values their
ISO 8601 text, and every other value passes through unchanged. -/
def serialize_value : Value → Value
  | Value.vOid s => Value.vStr s
  | Value.vDatetime t => Value.vStr t.isoformat
  | v => v

/-- `serialize_doc` on a dict (src/main.py lines 32-43): a falsy (empty)
dict is returned as is, otherwise every field's value is normalized by
`serialize_value`. -/
def serialize_dict (doc : Doc) : Doc :=
  if doc.isEmpty then doc
  else doc.map fun kv => (kv.1, serialize_value kv.2)

/-- `serialize_doc` as called on a possibly-`None` argument: `None` (like
any falsy input) is returned unchanged. -/
def serialize_doc : Option Doc → Option Doc
  | none => none
  | some doc => some (serialize_dict doc)

/-! ## The document store

`database.py` (imported by src/main.py line 9 for `db`, `create_document`
and `get_documents`) is not among the repository's files, so the
persistence adapter below is modelled from the specification, §4.2. -/

/-- The document store's state: named collections of documents in insertion
order, the counter from which fresh identifiers are generated, the clock
that stamps inserted records, a pending fault (when set, every storage
operation fails with that error text), and a count of storage operations
attempted so far, with which "no retry" is observable. -/
structure Store where
  collections : List (String × List Doc)
  nextId : Nat
  now : Datetime
  fault : Option String
  attempts : Nat
deriving DecidableEq, Repr

/-- The documents of the named collection ([] when it does not exist). -/
def getColl (cs : List (String × List Doc)) (c : String) : List Doc :=
  match cs with
  | [] => []
  | (k, ds) :: rest => if k = c then ds else getColl rest c

/-- Append a document to the named collection, creating it if absent. -/
def putColl (cs : List (String × List Doc)) (c : String) (d : Doc) :
    List (String × List Doc) :=
  match cs with
  | [] => [(c, [d])]
  | (k, ds) :: rest =>
      if k = c then (k, ds ++ [d]) :: rest else (k, ds) :: putColl rest c d

/-- The documents stored in collection `c` of store `s`. -/
def Store.get (s : Store) (c : String) : List Doc :=
  getColl s.collections c

/-- Modelled from the spec: `insert(collection_name, record) -> identifier`
of the persistence adapter (`create_document` of the missing `database.py`,
§4.2): writes the record to the named collection carrying a store-assigned
unique identifier and an implicit insertion timestamp (§3), and returns the
newly generated identifier as a string; fails with the storage fault's raw
error text when the store is unavailable or the write fails; a single
attempt is counted and no retry is made. -/
def create_document (coll : String) (doc : Doc) (s : Store) :
    Except String String × Store :=
  match s.fault with
  | some e => (Except.error e, { s with attempts := s.attempts + 1 })
  | none =>
      let oid := toString s.nextId
      let stored := ("_id", Value.vOid oid) :: doc ++
        [("created_at", Value.vDatetime s.now)]
      (Except.ok oid,
       { s with collections := putColl s.collections coll stored,
                nextId := s.nextId + 1,
                attempts := s.attempts + 1 })

/-- Modelled from the spec: `query(collection_name, limit) -> ordered
sequence of record` of the persistence adapter (`get_documents` of the
missing `database.py`, §4.2): returns up to `limit` records of the named
collection in the store's default order; fails with the storage fault's raw
error text when the store is unavailable; a single attempt is counted and
no retry is made. -/
def get_documents (coll : String) (limit : Nat) (s : Store) :
    Except String (List Doc) × Store :=
  match s.fault with
  | some e => (Except.error e, { s with attempts := s.attempts + 1 })
  | none => (Except.ok ((s.get coll).take limit), { s with attempts := s.attempts + 1 })

/-! ## Schemas (src/main.py lines 49-80) -/

/-- `BookingCreate` (src/main.py lines 49-58), after validation. -/
structure BookingCreate where
  student_name : String
  email : String
  phone : String
  service : String
  instructor : Option String
  date : String
  time : String
  pickup_location : Option String
  notes : Option String
deriving DecidableEq, Repr

/-- `LeadCreate` (src/main.py lines 61-67), after validation; `source`
already holds its default when the input omitted it. -/
structure LeadCreate where
  name : String
  email : String
  phone : Option String
  source : String
  message : Option String
  tag : Option String
deriving DecidableEq, Repr

/-- `ContactMessage` (src/main.py lines 70-74), after validation. -/
structure ContactMessage where
  name : String
  email : String
  subject : String
  message : String
deriving DecidableEq, Repr

/-- `EmailTemplate` (src/main.py lines 77-80). -/
structure EmailTemplate where
  key : String
  subject : String
  html : String
deriving DecidableEq, Repr

/-- An optional string as a document value: Python `None` becomes null. -/
def optValue : Option String → Value
  | none => Value.vNull
  | some s => Value.vStr s

/-- `payload.model_dump()` for a booking: the fields in declaration order. -/
def BookingCreate.model_dump (p : BookingCreate) : Doc :=
  [("student_name", Value.vStr p.student_name),
   ("email", Value.vStr p.email),
   ("phone", Value.vStr p.phone),
   ("service", Value.vStr p.service),
   ("instructor", optValue p.instructor),
   ("date", Value.vStr p.date),
   ("time", Value.vStr p.time),
   ("pickup_location", optValue p.pickup_location),
   ("notes", optValue p.notes)]

/-- `payload.model_dump()` for a lead: the fields in declaration order. -/
def LeadCreate.model_dump (p : LeadCreate) : Doc :=
  [("name", Value.vStr p.name),
   ("email", Value.vStr p.email),
   ("phone", optValue p.phone),
   ("source", Value.vStr p.source),
   ("message", optValue p.message),
   ("tag", optValue p.tag)]

/-- `payload.model_dump()` for a contact message. -/
def ContactMessage.model_dump (p : ContactMessage) : Doc :=
  [("name", Value.vStr p.name),
   ("email", Value.vStr p.email),
   ("subject", Value.vStr p.subject),
   ("message", Value.vStr p.message)]

/-! ## Endpoints (src/main.py lines 125-229) -/

/-- The shapes a handler's outcome can take: a JSON object, a JSON array of
documents, an `HTTPException(status_code, detail)`, or the framework's
validation rejection naming the offending field. -/
inductive Response where
  | json : Doc → Response
  | list : List Doc → Response
  | httpError : Nat → String → Response
  | validationError : String → Response
deriving DecidableEq, Repr

/-- Python's `lead.get('instructor') or 'Any'` (src/main.py line 137): a
missing or empty (falsy) instructor falls back to "Any". -/
def orAny : Option String → String
  | none => "Any"
  | some i => if i = "" then "Any" else i

/-- The message the derived lead carries (src/main.py line 137). -/
def bookingLeadMessage (p : BookingCreate) : String :=
  "Booking requested for " ++ p.service ++ " on " ++ p.date ++ " at " ++
  p.time ++ " with instructor " ++ orAny p.instructor ++ "."

/-- The CRM lead document derived from a booking (src/main.py lines 131-138). -/
def bookingLeadDoc (p : BookingCreate) : Doc :=
  [("name", Value.vStr p.student_name),
   ("email", Value.vStr p.email),
   ("phone", Value.vStr p.phone),
   ("source", Value.vStr "booking"),
   ("tag", Value.vStr p.service),
   ("message", Value.vStr (bookingLeadMessage p))]

/-- `POST /api/bookings` (src/main.py lines 125-142): insert the booking,
then the derived CRM lead; any storage exception becomes a 500 whose detail
is the raw error text. -/
def create_booking (payload : BookingCreate) (s : Store) : Response × Store :=
  match create_document "booking" payload.model_dump s with
  | (Except.error e, s1) => (Response.httpError 500 e, s1)
  | (Except.ok booking_id, s1) =>
      match create_document "lead" (bookingLeadDoc payload) s1 with
      | (Except.error e, s2) => (Response.httpError 500 e, s2)
      | (Except.ok _, s2) =>
          (Response.json [("success", Value.vBool true),
                          ("booking_id", Value.vStr booking_id)], s2)

/-- `GET /api/bookings` (src/main.py lines 145-151); `limit` defaults to 50
at the route. -/
def list_bookings (limit : Nat) (s : Store) : Response × Store :=
  match get_documents "booking" limit s with
  | (Except.error e, s1) => (Response.httpError 500 e, s1)
  | (Except.ok docs, s1) => (Response.list (docs.map serialize_dict), s1)

/-- `POST /api/leads` (src/main.py lines 157-163). -/
def create_lead (payload : LeadCreate) (s : Store) : Response × Store :=
  match create_document "lead" payload.model_dump s with
  | (Except.error e, s1) => (Response.httpError 500 e, s1)
  | (Except.ok lead_id, s1) =>
      (Response.json [("success", Value.vBool true),
                      ("lead_id", Value.vStr lead_id)], s1)

/-- `GET /api/leads` (src/main.py lines 166-172); `limit` defaults to 100
at the route. -/
def list_leads (limit : Nat) (s : Store) : Response × Store :=
  match get_documents "lead" limit s with
  | (Except.error e, s1) => (Response.httpError 500 e, s1)
  | (Except.ok docs, s1) => (Response.list (docs.map serialize_dict), s1)

/-- `POST /api/contact` (src/main.py lines 178-186): the submitted message
is stored as a lead with `source` set to "contact" (appended after the
model's own fields, as assignment to a fresh dict key does). -/
def contact (payload : ContactMessage) (s : Store) : Response × Store :=
  match create_document "lead" (payload.model_dump ++ [("source", Value.vStr "contact")]) s with
  | (Except.error e, s1) => (Response.httpError 500 e, s1)
  | (Except.ok lead_id, s1) =>
      (Response.json [("success", Value.vBool true),
                      ("lead_id", Value.vStr lead_id)], s1)

/-! ## The health endpoint `GET /test` (src/main.py lines 91-119) -/

/-- What the health check observes of its surroundings: whether the module's
`db` handle is non-`None`, the `DATABASE_URL` environment variable, the
handle's `name` attribute when it has one, and the outcome of
`db.list_collection_names()` (a value, or the raised exception's text). -/
structure TestEnv where
  dbConnected : Bool
  databaseUrl : Option String
  dbName : Option String
  listCollectionNames : Except String (List String)
deriving Repr

/-- The status object `GET /test` returns. -/
structure TestResponse where
  backend : String
  database : String
  database_url : String
  database_name : String
  connection_status : String
  collections : List String
deriving DecidableEq, Repr

/-- `GET /test` (src/main.py lines 91-119): builds the default status
object, upgrades it as far as the store allows, and catches every storage
fault into a degraded `database` message.  The embedding is a total
function: no input makes it raise. -/
def test_database (env : TestEnv) : TestResponse :=
  let r : TestResponse :=
    { backend := "✅ Running", database := "❌ Not Available",
      database_url := "❌ Not Set", database_name := "❌ Not Set",
      connection_status := "Not Connected", collections := [] }
  if env.dbConnected then
    let r := { r with
      database := "✅ Available",
      database_url :=
        match env.databaseUrl with
        | some u => if u = "" then "❌ Not Set" else "✅ Set"
        | none => "❌ Not Set",
      database_name :=
        match env.dbName with
        | some n => n
        | none => "✅ Connected",
      connection_status := "Connected" }
    match env.listCollectionNames with
    | Except.ok cols =>
        { r with collections := cols.take 15,
                 database := "✅ Connected & Working" }
    | Except.error e =>
        { r with database := "⚠️ Connected but Error: " ++ e.take 80 }
  else
    { r with database := "⚠️ Available but not initialized" }

/-! ## Email templates `GET /api/email-templates` (src/main.py lines 192-229) -/

/-- Python's `str.strip()`: drop whitespace from both ends.  (Written over
the character list because it must evaluate inside the kernel.) -/
def pyStrip (s : String) : String :=
  String.mk (((s.data.dropWhile Char.isWhitespace).reverse.dropWhile
    Char.isWhitespace).reverse)

/-- `brand` (src/main.py line 194). -/
def brand : String := "Geaux Driving"

/-- `zutobi_url` (src/main.py line 195). -/
def zutobi_url : String := "https://www.zutobi.com/"

/-- The welcome template's html, before `.strip()` (src/main.py lines 200-206). -/
def welcome_html_raw : String :=
  "\n            <h2>Welcome to " ++ brand ++ "!</h2>\n            " ++
  "<p>We're excited to help you become a safe, confident driver. You can book or manage your lessons anytime on our website.</p>\n            " ++
  "<p>Before your first lesson, spend 10 minutes reviewing your <a href='" ++ zutobi_url ++ "'>Zutobi</a> modules to maximize your time in the car.</p>\n            " ++
  "<p>Questions? Just reply to this email. We're here to help!</p>\n            " ++
  "<p>— The " ++ brand ++ " Team</p>\n            "

/-- The confirmation template's html, before `.strip()` (src/main.py lines 211-216). -/
def booking_confirmation_html_raw : String :=
  "\n            <h2>Your lesson is confirmed!</h2>\n            " ++
  "<p>Thank you for booking with " ++ brand ++ ". You'll receive a reminder 24 hours before your lesson.</p>\n            " ++
  "<p>Bring your permit/license and wear comfortable shoes. Review your <a href='" ++ zutobi_url ++ "'>Zutobi</a> module beforehand.</p>\n            " ++
  "<p>Need to reschedule? Use the link in your confirmation or contact support.</p>\n            "

/-- The post-lesson template's html, before `.strip()` (src/main.py lines 221-226). -/
def post_lesson_html_raw : String :=
  "\n            <h2>Great job behind the wheel!</h2>\n            " ++
  "<p>Your instructor has submitted your evaluation in Zutobi. Log in to review your progress and next steps.</p>\n            " ++
  "<p><a href='" ++ zutobi_url ++ "'>Access your evaluation</a></p>\n            " ++
  "<p>Keep practicing and see you soon!</p>\n            "

/-- `GET /api/email-templates` (src/main.py lines 192-229): a fixed list of
three templates with the brand name and the Zutobi link substituted in; the
handler never touches the store, which the unused parameter records. -/
def email_templates (_s : Store) : List EmailTemplate :=
  [{ key := "welcome",
     subject := "Welcome to " ++ brand ++ "! Your Path to Safe, Confident Driving",
     html := pyStrip welcome_html_raw },
   { key := "booking_confirmation",
     subject := brand ++ ": Your Driving Lesson is Confirmed",
     html := pyStrip booking_confirmation_html_raw },
   { key := "post_lesson",
     subject := brand ++ ": Great work today — review your evaluation in Zutobi",
     html := pyStrip post_lesson_html_raw }]

/-! ## The validation layer (spec §4.1; field declarations src/main.py lines 49-74)

The schemas declare which fields are required, optional or email-typed; the
checking machinery itself (pydantic, driven by FastAPI before a handler
runs) is not part of the repository's files, so it is modelled from the
specification: required fields present, email fields matching a standard
email grammar, checks in declaration order, a failure naming the field. -/

/-- Split a character list at every occurrence of `c` (like Python's
`str.split(c)`): the separators are dropped and the pieces kept, empty
pieces included. -/
def splitOnChar (c : Char) : List Char → List (List Char)
  | [] => [[]]
  | x :: xs =>
      if x = c then [] :: splitOnChar c xs
      else
        match splitOnChar c xs with
        | [] => [[x]]
        | h :: t => (x :: h) :: t

/-- Modelled from the spec: a field "declared as email must match a
standard email address grammar" (§4.1; `EmailStr`, src/main.py lines 51,
63, 72).  Standard grammar, simplified: exactly one `@`, a nonempty local
part, and a domain containing a dot that is not at either edge. -/
def valid_email (s : String) : Bool :=
  match splitOnChar '@' s.data with
  | [lp, dom] =>
      !lp.isEmpty && !dom.isEmpty && dom.contains '.' &&
      !(dom.head? == some '.') && !(dom.getLast? == some '.')
  | _ => false

/-- The raw JSON body of `POST /api/bookings`: each field possibly absent. -/
structure BookingInput where
  student_name : Option String
  email : Option String
  phone : Option String
  service : Option String
  instructor : Option String
  date : Option String
  time : Option String
  pickup_location : Option String
  notes : Option String
deriving DecidableEq, Repr

/-- The raw JSON body of `POST /api/leads`. -/
structure LeadInput where
  name : Option String
  email : Option String
  phone : Option String
  source : Option String
  message : Option String
  tag : Option String
deriving DecidableEq, Repr

/-- The raw JSON body of `POST /api/contact`. -/
structure ContactInput where
  name : Option String
  email : Option String
  subject : Option String
  message : Option String
deriving DecidableEq, Repr

/-- Modelled from the spec: validation of a `BookingCreate` body (§4.1, the
declarations at src/main.py lines 49-58): every required field present and
the email well formed, else a `ValidationError` naming the field. -/
def BookingCreate.parse (i : BookingInput) : Except String BookingCreate :=
  match i.student_name with
  | none => Except.error "student_name"
  | some student_name =>
  match i.email with
  | none => Except.error "email"
  | some email =>
  if valid_email email then
    match i.phone with
    | none => Except.error "phone"
    | some phone =>
    match i.service with
    | none => Except.error "service"
    | some service =>
    match i.date with
    | none => Except.error "date"
    | some date =>
    match i.time with
    | none => Except.error "time"
    | some time =>
      Except.ok { student_name := student_name, email := email, phone := phone,
                  service := service, instructor := i.instructor, date := date,
                  time := time, pickup_location := i.pickup_location,
                  notes := i.notes }
  else Except.error "email"

/-- Modelled from the spec: validation of a `LeadCreate` body (§4.1, the
declarations at src/main.py lines 61-67); an omitted `source` defaults to
the literal string "website". -/
def LeadCreate.parse (i : LeadInput) : Except String LeadCreate :=
  match i.name with
  | none => Except.error "name"
  | some name =>
  match i.email with
  | none => Except.error "email"
  | some email =>
  if valid_email email then
    Except.ok { name := name, email := email, phone := i.phone,
                source := i.source.getD "website", message := i.message,
                tag := i.tag }
  else Except.error "email"

/-- Modelled from the spec: validation of a `ContactMessage` body (§4.1,
the declarations at src/main.py lines 70-74). -/
def ContactMessage.parse (i : ContactInput) : Except String ContactMessage :=
  match i.name with
  | none => Except.error "name"
  | some name =>
  match i.email with
  | none => Except.error "email"
  | some email =>
  if valid_email email then
    match i.subject with
    | none => Except.error "subject"
    | some subject =>
    match i.message with
    | none => Except.error "message"
    | some message =>
      Except.ok { name := name, email := email, subject := subject,
                  message := message }
  else Except.error "email"

/-- The booking route as dispatched: the body is validated before the
handler runs; a failure is rejected with no handler call and no write. -/
def post_bookings (i : BookingInput) (s : Store) : Response × Store :=
  match BookingCreate.parse i with
  | Except.error f => (Response.validationError f, s)
  | Except.ok p => create_booking p s

/-- The lead route as dispatched: validation precedes the handler. -/
def post_leads (i : LeadInput) (s : Store) : Response × Store :=
  match LeadCreate.parse i with
  | Except.error f => (Response.validationError f, s)
  | Except.ok p => create_lead p s

/-- The contact route as dispatched: validation precedes the handler. -/
def post_contact (i : ContactInput) (s : Store) : Response × Store :=
  match ContactMessage.parse i with
  | Except.error f => (Response.validationError f, s)
  | Except.ok p => contact p s

/-- Whether a value is of one of the two store-specific types that
`serialize_doc` rewrites. -/
def Value.isStoreTyped : Value → Bool
  | Value.vOid _ => true
  | Value.vDatetime _ => true
  | _ => false

/-! ## Concrete sample data, used by the witness theorems -/

/-- A fixed clock value for sample stores. -/
def epoch : Datetime := ⟨2024, 1, 1, 0, 0, 0, 0⟩

/-- A healthy, empty store. -/
def emptyStore : Store :=
  { collections := [], nextId := 0, now := epoch, fault := none, attempts := 0 }

/-- A store whose connection is down: every operation faults. -/
def downStore : Store := { emptyStore with fault := some "db down" }

/-- A healthy store holding five booking documents. -/
def fiveBookingStore : Store :=
  { emptyStore with collections := [("booking", List.replicate 5 [])] }

/-- A valid booking payload. -/
def sampleBooking : BookingCreate :=
  ⟨"Jane Doe", "jane@example.com", "555-0100", "Road Test Prep", none,
   "2024-06-01", "10:00", none, none⟩

/-- A valid lead payload whose input omitted `source`. -/
def sampleLead : LeadCreate :=
  ⟨"Jane Doe", "jane@example.com", none, "website", none, none⟩

/-- The lead input behind `sampleLead`: `source` omitted. -/
def sampleLeadInput : LeadInput :=
  ⟨some "Jane Doe", some "jane@example.com", none, none, none, none⟩

/-- The spec's worked contact example. -/
def sampleContact : ContactMessage := ⟨"A", "a@b.com", "Hi", "test"⟩

/-- A health-check environment whose collection listing faults. -/
def envDegraded : TestEnv :=
  ⟨true, some "mongodb://localhost", some "geaux", Except.error "boom"⟩

/-! ## Helper lemmas -/

/-- Appending to a collection grows exactly that collection at its end. -/
theorem getColl_putColl_self (cs : List (String × List Doc)) (c : String) (d : Doc) :
    getColl (putColl cs c d) c = getColl cs c ++ [d] := by
  induction cs with
  | nil => simp [getColl, putColl]
  | cons kv rest ih =>
      obtain ⟨k, ds⟩ := kv
      by_cases h : k = c <;> simp [getColl, putColl, h, ih]

/-- Appending to one collection leaves every other collection unchanged. -/
theorem getColl_putColl_ne (cs : List (String × List Doc)) (c c' : String) (d : Doc)
    (h : c' ≠ c) : getColl (putColl cs c d) c' = getColl cs c' := by
  induction cs with
  | nil => simp [getColl, putColl, Ne.symm h]
  | cons kv rest ih =>
      obtain ⟨k, ds⟩ := kv
      by_cases hk : k = c
      · subst hk
        simp [getColl, putColl, Ne.symm h]
      · by_cases hk' : k = c'
        · subst hk'
          simp [getColl, putColl, hk]
        · simp [getColl, putColl, hk, hk', ih]

/-- `serialize_value` is idempotent: its output is never ObjectId- or
datetime-typed, so a second pass finds nothing to rewrite. -/
theorem serialize_value_idem (v : Value) :
    serialize_value (serialize_value v) = serialize_value v := by
  cases v <;> rfl

/-- `serialize_value` never yields a store-typed value. -/
theorem serialize_value_not_store_typed (v : Value) :
    (serialize_value v).isStoreTyped = false := by
  cases v <;> rfl

/-- `serialize_dict` is one value-wise map (the emptiness test of
`serialize_doc` changes nothing: mapping an empty dict is the empty dict). -/
theorem serialize_dict_eq_map (d : Doc) :
    serialize_dict d = d.map fun kv => (kv.1, serialize_value kv.2) := by
  cases d <;> simp [serialize_dict]

/-! ## The claims -/

/-- C10: `serialize_doc` is idempotent — serializing twice equals
serializing once, its output holds no ObjectId- or datetime-typed value,
and a falsy input (`None` or the empty mapping) comes back unchanged. -/
theorem serialize_doc_idempotent :
    (∀ d : Option Doc, serialize_doc (serialize_doc d) = serialize_doc d) ∧
    serialize_doc none = none ∧
    serialize_doc (some ([] : Doc)) = some [] ∧
    (∀ d : Doc, ((serialize_dict d).all fun kv => !kv.2.isStoreTyped) = true) := by
  have hdict : ∀ d : Doc, serialize_dict (serialize_dict d) = serialize_dict d := by
    intro d
    rw [serialize_dict_eq_map, serialize_dict_eq_map, List.map_map]
    refine List.map_congr_left fun kv _ => ?_
    simp [Function.comp, serialize_value_idem]
  refine ⟨?_, rfl, rfl, ?_⟩
  · intro d
    cases d with
    | none => rfl
    | some d => simp [serialize_doc, hdict]
  · intro d
    rw [serialize_dict_eq_map]
    induction d with
    | nil => rfl
    | cons kv rest ih => simp_all [serialize_value_not_store_typed]

/-- C4: serialization of a returned document keeps the key sequence,
rewrites each ObjectId value to its plain string form and each datetime
value to its ISO 8601 text, leaves every value of any other type unchanged,
and the list endpoints hand back exactly the store's answer serialized
document by document. -/
theorem serialize_doc_normalizes :
    (∀ d : Doc, (serialize_dict d).map Prod.fst = d.map Prod.fst) ∧
    (∀ (d : Doc) (i : Nat),
      (serialize_dict d)[i]? = d[i]?.map fun kv => (kv.1, serialize_value kv.2)) ∧
    (∀ s, serialize_value (Value.vOid s) = Value.vStr s) ∧
    (∀ t, serialize_value (Value.vDatetime t) = Value.vStr t.isoformat) ∧
    (∀ v : Value, (∀ s, v ≠ Value.vOid s) → (∀ t, v ≠ Value.vDatetime t) →
      serialize_value v = v) ∧
    (∀ (s : Store) (limit : Nat), s.fault = none →
      (list_bookings limit s).1 =
        Response.list (((s.get "booking").take limit).map serialize_dict) ∧
      (list_leads limit s).1 =
        Response.list (((s.get "lead").take limit).map serialize_dict)) := by
  refine ⟨?_, ?_, fun _ => rfl, fun _ => rfl, ?_, ?_⟩
  · intro d
    rw [serialize_dict_eq_map, List.map_map]
    rfl
  · intro d i
    rw [serialize_dict_eq_map, List.getElem?_map]
  · intro v h1 h2
    cases v with
    | vOid s => exact absurd rfl (h1 s)
    | vDatetime t => exact absurd rfl (h2 t)
    | vNull => rfl
    | vStr _ => rfl
    | vInt _ => rfl
    | vBool _ => rfl
  · intro s limit hf
    constructor <;> simp [list_bookings, list_leads, get_documents, hf]

/-- C4's witness: the theorem applied at concrete inputs, the conditional
pass-through conjunct discharged at a plain string value. -/
theorem serialize_doc_normalizes_witness :
    serialize_value (Value.vStr "hello") = Value.vStr "hello" :=
  serialize_doc_normalizes.2.2.2.2.1 (Value.vStr "hello")
    (fun _ h => Value.noConfusion h) (fun _ h => Value.noConfusion h)

/-- C1: a healthy `POST /api/bookings` call adds exactly one document to
the booking collection and exactly one to the lead collection, and the new
lead's source is "booking", its tag the booking's service, its
name/email/phone copied from the booking's student_name/email/phone, and
its message the text synthesized from the booking's service, date, time and
instructor fields. -/
theorem booking_creates_booking_and_lead (p : BookingCreate) (s : Store)
    (hf : s.fault = none) :
    ((create_booking p s).2.get "booking").length = (s.get "booking").length + 1 ∧
    ((create_booking p s).2.get "lead").length = (s.get "lead").length + 1 ∧
    ∃ leadDoc,
      (create_booking p s).2.get "lead" = s.get "lead" ++ [leadDoc] ∧
      leadDoc.lookup "source" = some (Value.vStr "booking") ∧
      leadDoc.lookup "tag" = some (Value.vStr p.service) ∧
      leadDoc.lookup "name" = some (Value.vStr p.student_name) ∧
      leadDoc.lookup "email" = some (Value.vStr p.email) ∧
      leadDoc.lookup "phone" = some (Value.vStr p.phone) ∧
      leadDoc.lookup "message" = some (Value.vStr (bookingLeadMessage p)) := by
  have hbl : ("booking" : String) ≠ "lead" := by decide
  have hlb : ("lead" : String) ≠ "booking" := by decide
  simp only [create_booking, create_document, hf, Store.get]
  refine ⟨?_, ?_, ?_⟩
  · rw [getColl_putColl_ne _ _ _ _ hbl, getColl_putColl_self]
    simp
  · rw [getColl_putColl_self, getColl_putColl_ne _ _ _ _ hlb]
    simp
  · refine ⟨("_id", Value.vOid (toString (s.nextId + 1))) :: bookingLeadDoc p ++
        [("created_at", Value.vDatetime s.now)], ?_, rfl, rfl, rfl, rfl, rfl, rfl⟩
    rw [getColl_putColl_self, getColl_putColl_ne _ _ _ _ hlb]

/-- C1's witness: the theorem applied to a concrete booking on a healthy
empty store. -/
theorem booking_creates_booking_and_lead_witness :
    ((create_booking sampleBooking emptyStore).2.get "booking").length =
      (emptyStore.get "booking").length + 1 ∧
    ((create_booking sampleBooking emptyStore).2.get "lead").length =
      (emptyStore.get "lead").length + 1 ∧
    ∃ leadDoc,
      (create_booking sampleBooking emptyStore).2.get "lead" =
        emptyStore.get "lead" ++ [leadDoc] ∧
      leadDoc.lookup "source" = some (Value.vStr "booking") ∧
      leadDoc.lookup "tag" = some (Value.vStr "Road Test Prep") ∧
      leadDoc.lookup "name" = some (Value.vStr "Jane Doe") ∧
      leadDoc.lookup "email" = some (Value.vStr "jane@example.com") ∧
      leadDoc.lookup "phone" = some (Value.vStr "555-0100") ∧
      leadDoc.lookup "message" = some (Value.vStr (bookingLeadMessage sampleBooking)) :=
  booking_creates_booking_and_lead sampleBooking emptyStore rfl

/-- C2: a lead input that omits `source` validates to a payload whose
source is the literal "website", the stored record's source field equals
"website", and each optional field the input did not supply (phone,
message, tag) is stored as null. -/
theorem lead_source_defaults_website (i : LeadInput) (p : LeadCreate) (s : Store)
    (hp : LeadCreate.parse i = Except.ok p) (hsrc : i.source = none)
    (hf : s.fault = none) :
    p.source = "website" ∧
    ∃ leadDoc,
      (create_lead p s).2.get "lead" = s.get "lead" ++ [leadDoc] ∧
      leadDoc.lookup "source" = some (Value.vStr "website") ∧
      (i.phone = none → leadDoc.lookup "phone" = some Value.vNull) ∧
      (i.message = none → leadDoc.lookup "message" = some Value.vNull) ∧
      (i.tag = none → leadDoc.lookup "tag" = some Value.vNull) := by
  cases hn : i.name with
  | none => rw [LeadCreate.parse, hn] at hp; exact Except.noConfusion hp
  | some name =>
  cases he : i.email with
  | none => rw [LeadCreate.parse, hn, he] at hp; exact Except.noConfusion hp
  | some email =>
  by_cases hv : valid_email email
  · rw [LeadCreate.parse, hn, he] at hp
    simp only [hv, if_true, Except.ok.injEq] at hp
    have hps : p.source = "website" := by rw [← hp]; simp [hsrc]
    have hpp : p.phone = i.phone := by rw [← hp]
    have hpm : p.message = i.message := by rw [← hp]
    have hpt : p.tag = i.tag := by rw [← hp]
    refine ⟨hps, ?_⟩
    simp only [create_lead, create_document, hf, Store.get]
    refine ⟨("_id", Value.vOid (toString s.nextId)) :: LeadCreate.model_dump p ++
        [("created_at", Value.vDatetime s.now)], by rw [getColl_putColl_self], ?_, ?_, ?_, ?_⟩
    · simp [LeadCreate.model_dump, List.lookup, hps]
    · intro h
      simp [LeadCreate.model_dump, List.lookup, hpp, h, optValue]
    · intro h
      simp [LeadCreate.model_dump, List.lookup, hpm, h, optValue]
    · intro h
      simp [LeadCreate.model_dump, List.lookup, hpt, h, optValue]
  · rw [LeadCreate.parse, hn, he] at hp
    simp only [hv, if_false] at hp
    exact Except.noConfusion hp

/-- C2's witness: the theorem applied to a concrete lead input omitting
`source` on a healthy empty store. -/
theorem lead_source_defaults_website_witness :
    sampleLead.source = "website" ∧
    ∃ leadDoc,
      (create_lead sampleLead emptyStore).2.get "lead" =
        emptyStore.get "lead" ++ [leadDoc] ∧
      leadDoc.lookup "source" = some (Value.vStr "website") ∧
      (sampleLeadInput.phone = none → leadDoc.lookup "phone" = some Value.vNull) ∧
      (sampleLeadInput.message = none → leadDoc.lookup "message" = some Value.vNull) ∧
      (sampleLeadInput.tag = none → leadDoc.lookup "tag" = some Value.vNull) :=
  lead_source_defaults_website sampleLeadInput sampleLead emptyStore rfl rfl rfl

/-- C3: a healthy `POST /api/contact` call stores exactly one new lead
whose source field is "contact" and whose message field is the submitted
message unchanged. -/
theorem contact_stores_contact_lead (p : ContactMessage) (s : Store)
    (hf : s.fault = none) :
    ((contact p s).2.get "lead").length = (s.get "lead").length + 1 ∧
    ∃ leadDoc,
      (contact p s).2.get "lead" = s.get "lead" ++ [leadDoc] ∧
      leadDoc.lookup "source" = some (Value.vStr "contact") ∧
      leadDoc.lookup "message" = some (Value.vStr p.message) ∧
      leadDoc.lookup "name" = some (Value.vStr p.name) ∧
      leadDoc.lookup "email" = some (Value.vStr p.email) ∧
      leadDoc.lookup "subject" = some (Value.vStr p.subject) := by
  simp only [contact, create_document, hf, Store.get]
  refine ⟨?_, ("_id", Value.vOid (toString s.nextId)) ::
      (ContactMessage.model_dump p ++ [("source", Value.vStr "contact")]) ++
      [("created_at", Value.vDatetime s.now)],
    by rw [getColl_putColl_self], rfl, rfl, rfl, rfl, rfl⟩
  rw [getColl_putColl_self]
  simp

/-- C3's witness: the spec's worked example — name "A", email "a@b.com",
subject "Hi", message "test" — stores a lead with source "contact" and
message "test". -/
theorem contact_stores_contact_lead_witness :
    ((contact sampleContact emptyStore).2.get "lead").length =
      (emptyStore.get "lead").length + 1 ∧
    ∃ leadDoc,
      (contact sampleContact emptyStore).2.get "lead" =
        emptyStore.get "lead" ++ [leadDoc] ∧
      leadDoc.lookup "source" = some (Value.vStr "contact") ∧
      leadDoc.lookup "message" = some (Value.vStr "test") ∧
      leadDoc.lookup "name" = some (Value.vStr "A") ∧
      leadDoc.lookup "email" = some (Value.vStr "a@b.com") ∧
      leadDoc.lookup "subject" = some (Value.vStr "Hi") :=
  contact_stores_contact_lead sampleContact emptyStore rfl

/-- C5: both list endpoints return at most `limit` serialized records, one
per document the store query yields; with five stored bookings,
`GET /api/bookings?limit=2` returns exactly two. -/
theorem list_endpoints_respect_limit (s : Store) (limit : Nat)
    (hf : s.fault = none) :
    (∃ ds, (list_bookings limit s).1 = Response.list ds ∧ ds.length ≤ limit) ∧
    (∃ ds, (list_leads limit s).1 = Response.list ds ∧ ds.length ≤ limit) ∧
    ((s.get "booking").length = 5 →
      ∃ ds, (list_bookings 2 s).1 = Response.list ds ∧ ds.length = 2) := by
  have hb : ∀ n, (list_bookings n s).1 =
      Response.list (((s.get "booking").take n).map serialize_dict) := by
    intro n
    simp [list_bookings, get_documents, hf]
  have hl : (list_leads limit s).1 =
      Response.list (((s.get "lead").take limit).map serialize_dict) := by
    simp [list_leads, get_documents, hf]
  refine ⟨⟨_, hb limit, ?_⟩, ⟨_, hl, ?_⟩, fun h5 => ⟨_, hb 2, ?_⟩⟩
  · simp [Nat.min_le_left]
  · simp [Nat.min_le_left]
  · simp [h5]

/-- C5's witness: the theorem applied to a healthy store holding five
bookings, the five-record hypothesis discharged there. -/
theorem list_endpoints_respect_limit_witness :
    ∃ ds, (list_bookings 2 fiveBookingStore).1 = Response.list ds ∧
      ds.length = 2 :=
  (list_endpoints_respect_limit fiveBookingStore 2 rfl).2.2 rfl

/-- C7: while the storage fault is pending, every endpoint that touches the
store answers HTTP 500 with exactly the fault's raw error text as its
detail, attempts the storage operation exactly once (no retry), and writes
nothing. -/
theorem storage_fault_yields_500_no_retry (s : Store) (e : String)
    (hf : s.fault = some e) (p : BookingCreate) (pl : LeadCreate)
    (c : ContactMessage) (limit : Nat) :
    create_booking p s = (Response.httpError 500 e, { s with attempts := s.attempts + 1 }) ∧
    create_lead pl s = (Response.httpError 500 e, { s with attempts := s.attempts + 1 }) ∧
    contact c s = (Response.httpError 500 e, { s with attempts := s.attempts + 1 }) ∧
    list_bookings limit s = (Response.httpError 500 e, { s with attempts := s.attempts + 1 }) ∧
    list_leads limit s = (Response.httpError 500 e, { s with attempts := s.attempts + 1 }) := by
  refine ⟨?_, ?_, ?_, ?_, ?_⟩ <;>
    simp [create_booking, create_lead, contact, list_bookings, list_leads,
      create_document, get_documents, hf]

/-- C7's witness: the theorem applied to a store whose connection is down,
with concrete payloads. -/
theorem storage_fault_yields_500_no_retry_witness :
    create_booking sampleBooking downStore =
      (Response.httpError 500 "db down", { downStore with attempts := downStore.attempts + 1 }) ∧
    create_lead sampleLead downStore =
      (Response.httpError 500 "db down", { downStore with attempts := downStore.attempts + 1 }) ∧
    contact sampleContact downStore =
      (Response.httpError 500 "db down", { downStore with attempts := downStore.attempts + 1 }) ∧
    list_bookings 3 downStore =
      (Response.httpError 500 "db down", { downStore with attempts := downStore.attempts + 1 }) ∧
    list_leads 3 downStore =
      (Response.httpError 500 "db down", { downStore with attempts := downStore.attempts + 1 }) :=
  storage_fault_yields_500_no_retry downStore "db down" rfl sampleBooking
    sampleLead sampleContact 3

/-- C8: `GET /test` is a total function of what it observes — it never
raises — and in each degraded situation it answers with a status object
describing the condition: the backend always reports running, a
never-initialized connection reports "Available but not initialized", a
collection-listing fault reports the fault's text (truncated to 80
characters) instead of propagating it, and a healthy store reports at most
its first 15 collection names. -/
theorem test_endpoint_never_raises (env : TestEnv) :
    (test_database env).backend = "✅ Running" ∧
    (env.dbConnected = false →
      (test_database env).database = "⚠️ Available but not initialized") ∧
    (∀ e, env.dbConnected = true → env.listCollectionNames = Except.error e →
      (test_database env).database = "⚠️ Connected but Error: " ++ e.take 80 ∧
      (test_database env).connection_status = "Connected") ∧
    (∀ cols, env.dbConnected = true → env.listCollectionNames = Except.ok cols →
      (test_database env).database = "✅ Connected & Working" ∧
      (test_database env).collections = cols.take 15) := by
  refine ⟨?_, ?_, ?_, ?_⟩
  · cases hc : env.dbConnected <;>
      cases hl : env.listCollectionNames <;> simp [test_database, hc, hl]
  · intro hc
    simp [test_database, hc]
  · intro e hc hl
    simp [test_database, hc, hl]
  · intro cols hc hl
    simp [test_database, hc, hl]

/-- C8's witness: the theorem applied to an environment whose collection
listing faults with "boom"; the endpoint still returns a status object,
reporting the degradation. -/
theorem test_endpoint_never_raises_witness :
    (test_database envDegraded).database =
      "⚠️ Connected but Error: " ++ "boom".take 80 ∧
    (test_database envDegraded).connection_status = "Connected" :=
  (test_endpoint_never_raises envDegraded).2.2.1 "boom" rfl rfl

/-- C9: `GET /api/email-templates` returns exactly three templates, keyed
welcome, booking_confirmation and post_lesson, each with a non-empty
subject and a non-empty html, and the result is the same whatever the
store's state. -/
theorem email_templates_fixed_three (s s' : Store) :
    (email_templates s).length = 3 ∧
    (email_templates s).map EmailTemplate.key =
      ["welcome", "booking_confirmation", "post_lesson"] ∧
    ((email_templates s).all fun t => !(t.subject == "") && !(t.html == "")) = true ∧
    email_templates s = email_templates s' :=
  ⟨rfl, rfl, rfl, rfl⟩

/-- A successful booking validation forces every required field present and
the email well formed. -/
theorem booking_parse_ok_fields (i : BookingInput) (p : BookingCreate)
    (h : BookingCreate.parse i = Except.ok p) :
    i.student_name = some p.student_name ∧ i.email = some p.email ∧
    valid_email p.email = true ∧ i.phone = some p.phone ∧
    i.service = some p.service ∧ i.date = some p.date ∧ i.time = some p.time := by
  obtain ⟨sn, em, ph, sv, ins, dt, tm, pl, nt⟩ := i
  cases sn with
  | none => simp [BookingCreate.parse] at h
  | some sn =>
  cases em with
  | none => simp [BookingCreate.parse] at h
  | some em =>
  by_cases hv : valid_email em
  · cases ph with
    | none => simp [BookingCreate.parse, hv] at h
    | some ph =>
    cases sv with
    | none => simp [BookingCreate.parse, hv] at h
    | some sv =>
    cases dt with
    | none => simp [BookingCreate.parse, hv] at h
    | some dt =>
    cases tm with
    | none => simp [BookingCreate.parse, hv] at h
    | some tm =>
      simp only [BookingCreate.parse, hv, if_true, Except.ok.injEq] at h
      rw [← h]
      exact ⟨rfl, rfl, hv, rfl, rfl, rfl, rfl⟩
  · simp [BookingCreate.parse, hv] at h

/-- A successful lead validation forces name and email present and the
email well formed. -/
theorem lead_parse_ok_fields (i : LeadInput) (p : LeadCreate)
    (h : LeadCreate.parse i = Except.ok p) :
    i.name = some p.name ∧ i.email = some p.email ∧ valid_email p.email = true := by
  obtain ⟨nm, em, ph, src, msg, tg⟩ := i
  cases nm with
  | none => simp [LeadCreate.parse] at h
  | some nm =>
  cases em with
  | none => simp [LeadCreate.parse] at h
  | some em =>
  by_cases hv : valid_email em
  · simp only [LeadCreate.parse, hv, if_true, Except.ok.injEq] at h
    rw [← h]
    exact ⟨rfl, rfl, hv⟩
  · simp [LeadCreate.parse, hv] at h

/-- A successful contact validation forces every required field present and
the email well formed. -/
theorem contact_parse_ok_fields (i : ContactInput) (p : ContactMessage)
    (h : ContactMessage.parse i = Except.ok p) :
    i.name = some p.name ∧ i.email = some p.email ∧
    valid_email p.email = true ∧ i.subject = some p.subject ∧
    i.message = some p.message := by
  obtain ⟨nm, em, sb, msg⟩ := i
  cases nm with
  | none => simp [ContactMessage.parse] at h
  | some nm =>
  cases em with
  | none => simp [ContactMessage.parse] at h
  | some em =>
  by_cases hv : valid_email em
  · cases sb with
    | none => simp [ContactMessage.parse, hv] at h
    | some sb =>
    cases msg with
    | none => simp [ContactMessage.parse, hv] at h
    | some msg =>
      simp only [ContactMessage.parse, hv, if_true, Except.ok.injEq] at h
      rw [← h]
      exact ⟨rfl, rfl, hv, rfl, rfl⟩
  · simp [ContactMessage.parse, hv] at h

/-- C6: an input missing a required field or carrying a malformed email
fails validation on each create endpoint, and a validation failure is
rejected with the store exactly as it was — no insert happens before
validation. -/
theorem invalid_input_rejected_before_write :
    (∀ i : BookingInput,
      ((i.student_name = none ∨ i.email = none ∨ i.phone = none ∨
        i.service = none ∨ i.date = none ∨ i.time = none) ∨
       (∃ e, i.email = some e ∧ valid_email e = false)) →
      ∃ f, BookingCreate.parse i = Except.error f) ∧
    (∀ i : LeadInput,
      ((i.name = none ∨ i.email = none) ∨
       (∃ e, i.email = some e ∧ valid_email e = false)) →
      ∃ f, LeadCreate.parse i = Except.error f) ∧
    (∀ i : ContactInput,
      ((i.name = none ∨ i.email = none ∨ i.subject = none ∨ i.message = none) ∨
       (∃ e, i.email = some e ∧ valid_email e = false)) →
      ∃ f, ContactMessage.parse i = Except.error f) ∧
    (∀ (i : BookingInput) (s : Store) (f : String),
      BookingCreate.parse i = Except.error f →
      post_bookings i s = (Response.validationError f, s)) ∧
    (∀ (i : LeadInput) (s : Store) (f : String),
      LeadCreate.parse i = Except.error f →
      post_leads i s = (Response.validationError f, s)) ∧
    (∀ (i : ContactInput) (s : Store) (f : String),
      ContactMessage.parse i = Except.error f →
      post_contact i s = (Response.validationError f, s)) := by
  refine ⟨?_, ?_, ?_, ?_, ?_, ?_⟩
  · intro i hbad
    cases hres : BookingCreate.parse i with
    | error f => exact ⟨f, rfl⟩
    | ok p =>
      exfalso
      obtain ⟨h1, h2, h3, h4, h5, h6, h7⟩ := booking_parse_ok_fields i p hres
      rcases hbad with (h | h | h | h | h | h) | ⟨e, he, hv⟩ <;> simp_all
  · intro i hbad
    cases hres : LeadCreate.parse i with
    | error f => exact ⟨f, rfl⟩
    | ok p =>
      exfalso
      obtain ⟨h1, h2, h3⟩ := lead_parse_ok_fields i p hres
      rcases hbad with (h | h) | ⟨e, he, hv⟩ <;> simp_all
  · intro i hbad
    cases hres : ContactMessage.parse i with
    | error f => exact ⟨f, rfl⟩
    | ok p =>
      exfalso
      obtain ⟨h1, h2, h3, h4, h5⟩ := contact_parse_ok_fields i p hres
      rcases hbad with (h | h | h | h) | ⟨e, he, hv⟩ <;> simp_all
  · intro i s f hferr
    simp [post_bookings, hferr]
  · intro i s f hferr
    simp [post_leads, hferr]
  · intro i s f hferr
    simp [post_contact, hferr]

/-- C6's witness: the theorem applied to a concrete malformed contact body
(bad email): it is rejected as a validation failure and the empty store is
returned untouched. -/
theorem invalid_input_rejected_before_write_witness :
    post_contact ⟨some "A", some "not-an-email", some "Hi", some "test"⟩
      emptyStore = (Response.validationError "email", emptyStore) :=
  invalid_input_rejected_before_write.2.2.2.2.2
    ⟨some "A", some "not-an-email", some "Hi", some "test"⟩ emptyStore "email" rfl

end GeauxDriving
